import Mathlib

/-!
Shallow embedding of the dockerchat agent example and the Azure OpenAI
wrapper of this repository, with theorems checking the natural-language
specification against the code.

External collaborators (the LLM sub-agent, the docker SDK, the repo
loader, the filesystem and the console) are passed in as explicit oracle
parameters; every externally observable collaborator call a handler makes
is recorded in an effect trace.
-/

namespace LangroidSpec

/-! ## Python string primitives, modelled over code-point lists -/

/-- Prefix test on code-point lists (model of Python str.startswith). -/
def charsPrefix : List Char → List Char → Bool
  | [], _ => true
  | _ :: _, [] => false
  | a :: as, b :: bs => a == b && charsPrefix as bs

/-- Substring containment on code-point lists: model of the Python
`needle in hay` test on strings. -/
def charsContain : List Char → List Char → Bool
  | hay, needle =>
    match hay with
    | [] => needle.isEmpty
    | _ :: rest => charsPrefix needle hay || charsContain rest needle

/-- Model of the Python expression `needle in hay` for strings. -/
def pyIn (needle hay : String) : Bool :=
  charsContain hay.toList needle.toList

/-- Model of Python str.startswith. -/
def pyStartsWith (s pre : String) : Bool :=
  charsPrefix pre.toList s.toList

/-- Python truthiness of an `Optional[str]` value: `None` and the empty
string are falsy. -/
def pyTruthyStr : Option String → Bool
  | none => false
  | some s => !(s == "")

/-- Lexicographic code-point comparison, `a <= b`:
model of Python string comparison. -/
def pyCharsLE : List Char → List Char → Bool
  | [], _ => true
  | _ :: _, [] => false
  | a :: as, b :: bs =>
    if a.toNat < b.toNat then true
    else if b.toNat < a.toNat then false
    else pyCharsLE as bs

/-- Model of the Python string comparison `a >= b`. -/
def pyStrGE (a b : String) : Bool :=
  pyCharsLE b.toList a.toList

/-- Model of Python str.lower. -/
def pyLower (s : String) : String :=
  String.mk (s.toList.map Char.toLower)

/-- Model of Python str.strip: drop whitespace from both ends. -/
def pyStrip (s : String) : String :=
  String.mk ((s.toList.dropWhile Char.isWhitespace).reverse.dropWhile Char.isWhitespace).reverse

/-- Model of a Python f-string interpolation of an `Optional[str]`:
`None` prints as the text None. -/
def pyFormatOptStr : Option String → String
  | none => "None"
  | some s => s

/-! ## Message types (dockerchat_agent_messages.py)

Each AgentMessage subclass becomes a structure with the same field
defaults.  The request/purpose strings are those of the source. -/

structure AskURLMessage where
  request : String := "ask_url"
  purpose : String := "To get the github repo url from the user."
  result : String := ""
deriving DecidableEq

structure RunPythonMessage where
  request : String := "run_python"
  code : String := "print(\x27hello world\x27)"
  result : String := "hello world"
deriving DecidableEq

structure FileExistsMessage where
  request : String := "file_exists"
  purpose : String := "To check if a file <filename> exists in the repo."
  filename : String := "test.txt"
  result : String := "yes"
deriving DecidableEq

structure PythonVersionMessage where
  request : String := "python_version"
  purpose : String := "To check which version of Python is needed."
  result : String := "3.9"
deriving DecidableEq

/-- The proposed_dockerfile field has Python type `Union[str, List[str]]`. -/
inductive PyStrOrList where
  | str (s : String)
  | list (xs : List String)
deriving DecidableEq

structure ValidateDockerfileMessage where
  request : String := "validate_dockerfile"
  proposed_dockerfile : PyStrOrList :=
    PyStrOrList.str ("\n        # Use an existing base image\n        FROM ubuntu:latest\n        # Set the maintainer information\n        LABEL maintainer=\"your_email@example.com\"\n        # Set the working directory\n        ")
  result : String := "build succeed"
deriving DecidableEq

structure PythonDependencyMessage where
  request : String := "python_dependency"
  purpose : String := "To find out the python dependencies."
  result : String := "yes"
deriving DecidableEq

structure EntryPointAndCMDMessage where
  request : String := "find_entrypoint"
  result : String := "I couldn\x27t identify potentail main scripts for the \n    ENTRYPOINT"
deriving DecidableEq

structure RunContainerMessage where
  request : String := "run_container"
  test : String := "python tests/t1.py"
  location : String := "Inside"
  run : String := "docker run"
  result : String := "The container runs correctly"
deriving DecidableEq

def askURLMessageDefault : AskURLMessage := {}
def runPythonMessageDefault : RunPythonMessage := {}
def fileExistsMessageDefault : FileExistsMessage := {}
def pythonVersionMessageDefault : PythonVersionMessage := {}
def validateDockerfileMessageDefault : ValidateDockerfileMessage := {}
def pythonDependencyMessageDefault : PythonDependencyMessage := {}
def entryPointAndCMDMessageDefault : EntryPointAndCMDMessage := {}
def runContainerMessageDefault : RunContainerMessage := {}

/-- The request names of the eight message types defined in
dockerchat_agent_messages.py, in definition order. -/
def messageRequestNames : List String :=
  [askURLMessageDefault.request,
   runPythonMessageDefault.request,
   fileExistsMessageDefault.request,
   pythonVersionMessageDefault.request,
   validateDockerfileMessageDefault.request,
   pythonDependencyMessageDefault.request,
   entryPointAndCMDMessageDefault.request,
   runContainerMessageDefault.request]

/-- The method names defined on DockerChatAgent in docker_chat_agent.py,
in definition order. -/
def dockerChatAgentMethodNames : List String :=
  ["process_pending_message",
   "handle_message_fallback",
   "run_python",
   "ask_url",
   "python_version",
   "file_exists",
   "python_dependency",
   "_cleanup_dockerfile",
   "_save_dockerfile",
   "_build_docker_image",
   "validate_dockerfile",
   "find_entrypoint"]

/-! ## DockerChatAgent state and collaborators -/

def DEFAULT_URL : String := "https://github.com/eugeneyan/testing-ml"

/-- Modelled from the spec: the repository tree produced by the
repository-introspection collaborator (`listing(path, depth,
lines_per_file) -> tree`); the dockerchat handlers only inspect the
file and directory names of the tree. -/
structure RepoTree where
  files : List String
  dirs : List String
deriving DecidableEq

structure DockerChatAgentState where
  url : String := DEFAULT_URL
  repo_tree : RepoTree := ⟨[], []⟩
  repo_path : Option String := none
deriving DecidableEq

structure DockerImage where
  id : String
deriving DecidableEq

/-- One externally observable collaborator call made by a handler. -/
inductive Effect where
  | askAgent (request : String)
  | selectRepo (includes : List String)
  | getPythonVersion (path : String)
  | identifyDependency (path : String)
  | promptUser (prompt : String)
  | saveDockerfile (path : String) (content : String)
  | buildImage (dockerfileName : String) (tag : String)
  | removeFile (path : String)
  | removeImage (imgId : String)
deriving DecidableEq

/-- The oracle responses of the external collaborators consumed by the
dockerchat handlers: the code-chat sub-agent (`ask_agent`), the local
analyses, the filesystem write and the docker build. -/
structure Collaborators where
  askAgent : String → Option String
  get_python_version : String → Option String
  identify_dependency_management : String → Option String
  saveError : Option String
  buildResult : Except String (DockerImage × Nat)
  confirmAnswer : String

/-! ## handle_message_fallback (docker_chat_agent.py lines 73-80) -/

def urlFallbackMessage : String :=
  "\n            You have not sent me the URL for the repo yet. \n            Please ask me for the URL, and once you receive it, \n            send it to me for confirmation. Once I confirm the URL, \n            you can proceed.\n            "

def handle_message_fallback (repo_path : Option String) (input_str : String := "") : Option String :=
  if repo_path.isNone && !(pyIn ("URL") input_str) then
    some urlFallbackMessage
  else
    none

/-! ## Repo-dependent handlers (docker_chat_agent.py)

Each handler returns the handler result (an `Option String`, since the
fallback can in principle be `None`) together with the trace of
collaborator calls it performed. -/

/-- Modelled from the spec: the repository-introspection collaborator
operation `select(tree, name_filters) -> matches`, whose code
(RepoLoader.select) is not under src/.  It returns a dictionary of the
tree entries matching the filters, keyed by category; the dockerchat
handler reads its "files" entry. -/
def RepoLoader_select (tree : RepoTree) (includes : List String) : List (String × List String) :=
  [("files", tree.files.filter (fun f => includes.contains f)),
   ("dirs", tree.dirs.filter (fun d => includes.contains d))]

/-- Python dictionary lookup `d[key]` for the select result. -/
def dictGet (d : List (String × List String)) (key : String) : List String :=
  match d.find? (fun kv => kv.1 == key) with
  | some kv => kv.2
  | none => []

def pythonVersionRequest : String :=
  "What is the Python version of this repo?"

def pythonVersionUnknownMessage : String :=
  "Couldn\x27t identify the python version"

def python_version (st : DockerChatAgentState) (co : Collaborators)
    (_m : PythonVersionMessage) : Option String × List Effect :=
  match st.repo_path with
  | none => (handle_message_fallback none "", [])
  | some repo_path =>
    match co.askAgent pythonVersionRequest with
    | some answer => (some answer, [Effect.askAgent pythonVersionRequest])
    | none =>
      let answer := co.get_python_version repo_path
      if pyTruthyStr answer then
        (some (answer.getD ""),
         [Effect.askAgent pythonVersionRequest, Effect.getPythonVersion repo_path])
      else
        (some pythonVersionUnknownMessage,
         [Effect.askAgent pythonVersionRequest, Effect.getPythonVersion repo_path])

def fileExistsRequest (filename : String) : String :=
  "Does this project contain a file named " ++ filename ++ "?"

def fileExistsYesMessage (filename : String) : String :=
  "\n            Yes, there is a file named " ++ filename ++ " in the repo."

def fileExistsNoMessage (filename : String) : String :=
  "\n            No, there is no file named " ++ filename ++ " in the repo."

def file_exists (st : DockerChatAgentState) (co : Collaborators)
    (message : FileExistsMessage) : Option String × List Effect :=
  match st.repo_path with
  | none => (handle_message_fallback none "", [])
  | some _ =>
    let req := fileExistsRequest message.filename
    match co.askAgent req with
    | some answer => (some answer, [Effect.askAgent req])
    | none =>
      let ms := RepoLoader_select st.repo_tree [message.filename]
      let effs := [Effect.askAgent req, Effect.selectRepo [message.filename]]
      let existsInRepo := if ms.length > 0 then (dictGet ms ("files")).length > 0 else false
      if existsInRepo then
        (some (fileExistsYesMessage message.filename), effs)
      else
        (some (fileExistsNoMessage message.filename), effs)

def pythonDependencyRequest : String :=
  "Which file is used to manage dependencies in this project?"

def python_dependency (st : DockerChatAgentState) (co : Collaborators)
    (_m : PythonDependencyMessage) : Option String × List Effect :=
  match st.repo_path with
  | none => (handle_message_fallback none "", [])
  | some repo_path =>
    match co.askAgent pythonDependencyRequest with
    | some answer => (some answer, [Effect.askAgent pythonDependencyRequest])
    | none =>
      let python_dependency := co.identify_dependency_management repo_path
      let effs := [Effect.askAgent pythonDependencyRequest, Effect.identifyDependency repo_path]
      if pyTruthyStr python_dependency then
        (some ("Dependencies in this repo are managed using: " ++ python_dependency.getD ""), effs)
      else
        (some ("Dependencies are not defined in this repo"), effs)

def entrypointRequest : String :=
  "What\x27s the name of main script in this repo and can you SPECIFY \n            the command line and necessary arguments to run the main script? \n            If there are more than one main script, then SPECIFY the commands \n            and necessary arguments corresponding to each one\n            "

def entrypointUnknownMessage : String :=
  "I couldn\x27t identify potentail main scripts for the ENTRYPOINT"

def find_entrypoint (st : DockerChatAgentState) (co : Collaborators)
    (_m : EntryPointAndCMDMessage) : Option String × List Effect :=
  match st.repo_path with
  | none => (handle_message_fallback none "", [])
  | some _ =>
    match co.askAgent entrypointRequest with
    | some answer => (some answer, [Effect.askAgent entrypointRequest])
    | none => (some entrypointUnknownMessage, [Effect.askAgent entrypointRequest])

/-! ## Dockerfile save / build / cleanup and validate_dockerfile -/

/-- _save_dockerfile: writes the dockerfile under the repo root and
returns the full path, or an error text if the write raised. -/
def _save_dockerfile (repo_path : String) (saveError : Option String)
    (dockerfile : String) (proposed_dockerfile_name : String) : String × List Effect :=
  let full_path := repo_path ++ "/" ++ proposed_dockerfile_name
  match saveError with
  | none => (full_path, [Effect.saveDockerfile full_path dockerfile])
  | some e =>
    ("An error occurred while saving the Dockerfile: " ++ e,
     [Effect.saveDockerfile full_path dockerfile])

/-- Two-decimal rendering of the build duration, given in hundredths of
a second: model of the Python format string applied to the elapsed
`timedelta` total seconds. -/
def formatBuildTime (centiseconds : Nat) : String :=
  toString (centiseconds / 100) ++ "." ++
    (if centiseconds % 100 < 10 then "0" ++ toString (centiseconds % 100)
     else toString (centiseconds % 100))

/-- _build_docker_image: a docker build error is caught and surfaced as
text, never rethrown. -/
def _build_docker_image (co : Collaborators)
    (proposed_doeckerfile_name : String) (img_tag : String) :
    (Option DockerImage × String × Option String) × List Effect :=
  match co.buildResult with
  | Except.error e =>
    ((none, "Image build failed: " ++ e, none),
     [Effect.buildImage proposed_doeckerfile_name img_tag])
  | Except.ok (image, elapsed) =>
    ((some image, "Image build successful!", some (formatBuildTime elapsed)),
     [Effect.buildImage proposed_doeckerfile_name img_tag])

/-- _cleanup_dockerfile: removes the saved dockerfile and the built image. -/
def _cleanup_dockerfile (img_id : String) (dockerfile_path : String) : List Effect :=
  [Effect.removeFile dockerfile_path, Effect.removeImage img_id]

/-- The normalization at the top of validate_dockerfile: a list of
strings is joined with newlines into one string. -/
def joinProposedDockerfile : PyStrOrList → String
  | PyStrOrList.str s => s
  | PyStrOrList.list xs => String.intercalate "\n" xs

def invalidDockerfileParamMessage : String :=
  "\n            The `proposed_dockerfile` parameter is invalid;\n            Note this parameter should contain the CONTENTS of the \n            proposed dockerfile, NOT the NAME of the Dockerfile\n            "

def notReadyForValidationMessage : String :=
  "\"\n                    Not ready for dockerfile validation, please \n                    continue with your next question or request for information.\n                    "

def validate_dockerfile (st : DockerChatAgentState) (co : Collaborators)
    (dockerfile_msg : ValidateDockerfileMessage) (confirm : Bool := true) :
    Option String × List Effect :=
  match st.repo_path with
  | none => (handle_message_fallback none "", [])
  | some repo_path =>
    let content := joinProposedDockerfile dockerfile_msg.proposed_dockerfile
    if content.length < 20 then
      (some invalidDockerfileParamMessage, [])
    else
      let promptEffects :=
        if confirm then [Effect.promptUser ("Please confirm dockerfile validation")] else []
      if confirm && !(pyLower co.confirmAnswer == "y") then
        (some notReadyForValidationMessage, promptEffects)
      else
        let proposed_dockerfile_name := "Dockerfile_proposed"
        let img_tag := "validate_img"
        let saveRes := _save_dockerfile repo_path co.saveError content proposed_dockerfile_name
        let dockerfile_path := saveRes.1
        if pyStartsWith dockerfile_path ("An error") then
          (some dockerfile_path, promptEffects ++ saveRes.2)
        else
          let buildRes := _build_docker_image co proposed_dockerfile_name img_tag
          match buildRes.1 with
          | (some img, _build_log, build_time) =>
            (some ("Docker image built successfully and build time took:" ++
                    pyFormatOptStr build_time ++ " Seconds..."),
             promptEffects ++ saveRes.2 ++ buildRes.2 ++ _cleanup_dockerfile img.id dockerfile_path)
          | (none, build_log, _build_time) =>
            (some ("Docker build failed with error message: " ++ build_log),
             promptEffects ++ saveRes.2 ++ buildRes.2)

/-! ## process_pending_message (docker_chat_agent.py lines 61-71) -/

/-- A chat document: the handlers and the sub-agent exchange values
carrying a text content. -/
structure ChatDoc where
  content : String
deriving DecidableEq

/-- The per-turn state of the delegating agent.  `task_seed` records the
message the agent task was last (re-)seeded with (the `setup_task` call,
modelled from the spec: the base ChatAgent class is not under src/);
`sub_agent_state` stands for the delegated code-chat agent's own state. -/
structure TaskState where
  current_response : Option ChatDoc
  pending_message : ChatDoc
  task_seed : Option String
  sub_agent_state : Nat
deriving DecidableEq

/-- DockerChatAgent.process_pending_message.  `superResponse` is the
current_response produced by the base-class step
(`super().process_pending_message()`, modelled from the spec: the base
ChatAgent class is not under src/); `doTask` is the delegated sub-agent
oracle (`code_chat_agent.do_task`). -/
def process_pending_message (superResponse : Option ChatDoc)
    (doTask : String → Option ChatDoc) (s : TaskState) : TaskState :=
  let s1 : TaskState := { s with current_response := superResponse }
  match s1.current_response with
  | some _ => s1
  | none =>
    let result := doTask s1.pending_message.content
    match result with
    | none => { s1 with current_response := none }
    | some r =>
      { s1 with
        current_response := some r
        pending_message := r
        task_seed := some r.content }

/-! ## AzureGPT (langroid/language_models/azure_openai.py) -/

def azureStructuredOutputList : List String :=
  ["2024-08-06", "2024-11-20"]

def azureStructuredOutputAPIMin : String := "2024-08-01-preview"

/-- AzureConfig with the source defaults; the two optional client
providers are represented by their Python truthiness. -/
structure AzureConfig where
  api_key : String := ""
  api_version : String := "2023-05-15"
  deployment_name : String := ""
  model_name : String := ""
  model_version : String := ""
  api_base : String := ""
  has_azure_openai_client_provider : Bool := false
  has_azure_openai_async_client_provider : Bool := false
deriving DecidableEq

/-- The attributes AzureGPT.__init__ establishes when it completes. -/
structure AzureGPTState where
  deployment_name : String
  chat_model : String
  has_client : Bool
  has_async_client : Bool
  supports_json_schema : Bool
deriving DecidableEq

/-- AzureGPT.__init__: an `Except.error` value models a raised
ValueError. -/
def AzureGPT_init (config : AzureConfig) : Except String AzureGPTState :=
  if config.deployment_name == "" then
    Except.error ("AZURE_OPENAI_DEPLOYMENT_NAME not set in .env file, please set it to your Azure openai deployment name.")
  else if config.model_name == "" then
    Except.error ("AZURE_OPENAI_MODEL_NAME not set in .env file, please set it to chat model name in your deployment.")
  else if config.has_azure_openai_client_provider || config.has_azure_openai_async_client_provider then
    Except.ok
      { deployment_name := config.deployment_name
        chat_model := config.model_name
        has_client := config.has_azure_openai_client_provider
        has_async_client := config.has_azure_openai_async_client_provider
        supports_json_schema :=
          pyStrGE config.api_version azureStructuredOutputAPIMin &&
            azureStructuredOutputList.contains config.model_version }
  else if config.api_key == "" then
    Except.error ("AZURE_OPENAI_API_KEY not set in .env file, please set it to your Azure API key.")
  else if config.api_base == "" then
    Except.error ("AZURE_OPENAI_API_BASE not set in .env file, please set it to your Azure API key.")
  else
    Except.ok
      { deployment_name := config.deployment_name
        chat_model := config.model_name
        has_client := true
        has_async_client := true
        supports_json_schema :=
          pyStrGE config.api_version azureStructuredOutputAPIMin &&
            azureStructuredOutputList.contains config.model_version }

/-! ## Sample states and collaborators for concrete evaluation -/

def sampleCollaborators : Collaborators :=
  { askAgent := fun _ => none
    get_python_version := fun _ => none
    identify_dependency_management := fun _ => none
    saveError := none
    buildResult := Except.error ("err")
    confirmAnswer := "y" }

def emptyRepoState : DockerChatAgentState :=
  { url := DEFAULT_URL, repo_tree := ⟨[], []⟩, repo_path := none }

def readmeState : DockerChatAgentState :=
  { url := DEFAULT_URL
    repo_tree := { files := ["README.md"], dirs := ["src"] }
    repo_path := some "/repo" }

/-! ## Theorems -/

/-- C1: handle_message_fallback returns the URL-clarification message
exactly when repo_path is none and the substring URL does not occur in
the input string, and returns none in every other case; being a pure
function of repo_path and the input, it is deterministic and
side-effect free. -/
theorem handle_message_fallback_spec (repo_path : Option String) (input_str : String) :
    (handle_message_fallback repo_path input_str = some urlFallbackMessage ↔
      (repo_path = none ∧ pyIn ("URL") input_str = false)) ∧
    (handle_message_fallback repo_path input_str = none ↔
      ¬(repo_path = none ∧ pyIn ("URL") input_str = false)) := by
  unfold handle_message_fallback
  cases repo_path <;> cases h : pyIn ("URL") input_str <;> simp [h]

/-- C2: with repo_path unset, every repo-dependent handler returns the
fallback clarification for empty input and performs no collaborator
call (empty effect trace). -/
theorem repo_handlers_fallback_when_no_repo (st : DockerChatAgentState) (co : Collaborators)
    (m1 : PythonVersionMessage) (m2 : FileExistsMessage) (m3 : PythonDependencyMessage)
    (m4 : ValidateDockerfileMessage) (m5 : EntryPointAndCMDMessage) (confirm : Bool)
    (h : st.repo_path = none) :
    python_version st co m1 = (handle_message_fallback none "", []) ∧
    file_exists st co m2 = (handle_message_fallback none "", []) ∧
    python_dependency st co m3 = (handle_message_fallback none "", []) ∧
    validate_dockerfile st co m4 confirm = (handle_message_fallback none "", []) ∧
    find_entrypoint st co m5 = (handle_message_fallback none "", []) := by
  refine ⟨?_, ?_, ?_, ?_, ?_⟩ <;>
    simp [python_version, file_exists, python_dependency, validate_dockerfile,
      find_entrypoint, h]

/-- C2 witness: the five handlers on a concrete state with no repo. -/
theorem repo_handlers_fallback_witness :
    python_version emptyRepoState sampleCollaborators pythonVersionMessageDefault =
      (handle_message_fallback none "", []) ∧
    file_exists emptyRepoState sampleCollaborators fileExistsMessageDefault =
      (handle_message_fallback none "", []) ∧
    python_dependency emptyRepoState sampleCollaborators pythonDependencyMessageDefault =
      (handle_message_fallback none "", []) ∧
    validate_dockerfile emptyRepoState sampleCollaborators validateDockerfileMessageDefault true =
      (handle_message_fallback none "", []) ∧
    find_entrypoint emptyRepoState sampleCollaborators entryPointAndCMDMessageDefault =
      (handle_message_fallback none "", []) :=
  repo_handlers_fallback_when_no_repo emptyRepoState sampleCollaborators
    pythonVersionMessageDefault fileExistsMessageDefault pythonDependencyMessageDefault
    validateDockerfileMessageDefault entryPointAndCMDMessageDefault true rfl

def shortDockerfileMessage : ValidateDockerfileMessage :=
  { proposed_dockerfile := PyStrOrList.str ("Dockerfile") }

/-- C5 counterexample: with repo_path unset, a ValidateDockerfileMessage
whose content is shorter than 20 characters is answered with the URL
fallback clarification, not with the corrective message about the
parameter shape, so the claim as stated fails. -/
theorem validate_dockerfile_short_counterexample :
    validate_dockerfile emptyRepoState sampleCollaborators shortDockerfileMessage true =
      (handle_message_fallback none "", []) ∧
    handle_message_fallback none "" ≠ some invalidDockerfileParamMessage := by
  constructor
  · rfl
  · intro h
    exact absurd h (by decide)

/-- C5 (amended): when repo_path is established, a proposed dockerfile
whose joined content is shorter than 20 characters yields the corrective
message about the parameter shape, with no save, build, cleanup or any
other collaborator call, and no exception (the handler is total). -/
theorem validate_dockerfile_short_spec (st : DockerChatAgentState) (co : Collaborators)
    (m : ValidateDockerfileMessage) (confirm : Bool) (p : String)
    (hrp : st.repo_path = some p)
    (hshort : (joinProposedDockerfile m.proposed_dockerfile).length < 20) :
    validate_dockerfile st co m confirm = (some invalidDockerfileParamMessage, []) := by
  simp [validate_dockerfile, hrp, hshort]

/-- C5 witness: the amended statement at a concrete repo state and a
ten-character dockerfile content. -/
theorem validate_dockerfile_short_witness :
    validate_dockerfile readmeState sampleCollaborators shortDockerfileMessage true =
      (some invalidDockerfileParamMessage, []) :=
  validate_dockerfile_short_spec readmeState sampleCollaborators shortDockerfileMessage
    true "/repo" rfl (by decide)

/-- C7: when the primary handling leaves current_response empty and the
delegated sub-agent's do_task returns a result, the delegating agent
stores that result as its current_response, replaces its own
pending_message with it and re-seeds its task with the result's content,
while the sub-agent state component is left unchanged. -/
theorem process_pending_message_delegation (doTask : String → Option ChatDoc)
    (s : TaskState) (r : ChatDoc)
    (h : doTask s.pending_message.content = some r) :
    process_pending_message none doTask s =
      { current_response := some r
        pending_message := r
        task_seed := some r.content
        sub_agent_state := s.sub_agent_state } := by
  simp [process_pending_message, h]

def sampleTaskState : TaskState :=
  { current_response := none
    pending_message := { content := "build" }
    task_seed := none
    sub_agent_state := 7 }

def sampleDoTask : String → Option ChatDoc :=
  fun c => some { content := c ++ " handled" }

/-- C7 witness: the delegation step on a concrete task state. -/
theorem process_pending_message_delegation_witness :
    process_pending_message none sampleDoTask sampleTaskState =
      { current_response := some { content := "build handled" }
        pending_message := { content := "build handled" }
        task_seed := some ("build handled")
        sub_agent_state := 7 } :=
  process_pending_message_delegation sampleDoTask sampleTaskState
    { content := "build handled" } rfl

/-- C8 counterexample: the request name run_container of
RunContainerMessage matches no DockerChatAgent method, so the claim as
stated fails for that message type. -/
theorem run_container_handler_counterexample :
    ("run_container" : String) ∈ messageRequestNames ∧
    ("run_container" : String) ∉ dockerChatAgentMethodNames := by decide

/-- C8 (amended): the eight request names are pairwise distinct, and
every one of them except run_container equals the name of a
DockerChatAgent method that handles it. -/
theorem message_request_names_spec :
    messageRequestNames.Nodup ∧
    (messageRequestNames.filter (fun r => !(r == "run_container"))).all
      (fun r => dockerChatAgentMethodNames.contains r) = true := by decide

theorem filter_eq_singleton_pos {a : String} {l : List String} (h : a ∈ l) :
    0 < (l.filter (fun f => decide (f = a))).length := by
  have hm : a ∈ l.filter (fun f => decide (f = a)) := by
    rw [List.mem_filter]
    exact ⟨h, by simp⟩
  exact List.length_pos.mpr (List.ne_nil_of_mem hm)

theorem filter_eq_singleton_nil {a : String} {l : List String} (h : a ∉ l) :
    l.filter (fun f => decide (f = a)) = [] := by
  rw [List.filter_eq_nil_iff]
  intro x hx hc
  simp at hc
  subst hc
  exact h hx

/-- C3 counterexample: with the repo established, the sub-agent silent
and README.md in the listing, file_exists answers with the affirmative
message, but that message carries the leading newline and indentation of
the source's triple-quoted literal, so it is not equal to the bare
sentence the claim states. -/
theorem file_exists_readme_counterexample :
    (file_exists readmeState sampleCollaborators { filename := "README.md" }).1 =
      some (fileExistsYesMessage ("README.md")) ∧
    (file_exists readmeState sampleCollaborators { filename := "README.md" }).1 ≠
      some ("Yes, there is a file named README.md in the repo.") := by
  constructor
  · rfl
  · intro h
    exact absurd h (by decide)

/-- C3 (amended): with repo_path established and the delegated code-chat
agent returning no answer, file_exists on README.md returns the message
whose whitespace-stripped content is the sentence the claim states —
affirmative when the tree listing holds a file README.md, negative
otherwise; the literal return value starts with a newline and
indentation. -/
theorem file_exists_readme_spec (st : DockerChatAgentState) (co : Collaborators) (p : String)
    (hrp : st.repo_path = some p)
    (hask : co.askAgent (fileExistsRequest ("README.md")) = none) :
    (("README.md" : String) ∈ st.repo_tree.files →
       (file_exists st co { filename := "README.md" }).1 =
         some (fileExistsYesMessage ("README.md")))
    ∧ (("README.md" : String) ∉ st.repo_tree.files →
       (file_exists st co { filename := "README.md" }).1 =
         some (fileExistsNoMessage ("README.md")))
    ∧ pyStrip (fileExistsYesMessage ("README.md")) =
        "Yes, there is a file named README.md in the repo."
    ∧ pyStrip (fileExistsNoMessage ("README.md")) =
        "No, there is no file named README.md in the repo." := by
  refine ⟨?_, ?_, by decide, by decide⟩
  · intro hmem
    have hpos := filter_eq_singleton_pos hmem
    simp [file_exists, hrp, hask, RepoLoader_select, dictGet, hpos]
  · intro hmem
    have hnil := filter_eq_singleton_nil hmem
    simp [file_exists, hrp, hask, RepoLoader_select, dictGet, hnil]

/-- C3 witness: file_exists on a concrete repo whose listing holds
README.md. -/
theorem file_exists_readme_witness :
    (file_exists readmeState sampleCollaborators { filename := "README.md" }).1 =
      some (fileExistsYesMessage ("README.md")) :=
  (file_exists_readme_spec readmeState sampleCollaborators "/repo" rfl rfl).1 (by decide)

/-- C4: python_version resolves in two stages tried in order — the
sub-agent answer is returned whenever it is non-null; only when it is
null is the local analysis consulted (visible in the effect trace), its
result returned when truthy, and the fixed fallback string returned
when neither resolver yields anything. -/
theorem python_version_two_stage (st : DockerChatAgentState) (co : Collaborators)
    (m : PythonVersionMessage) (p : String) (hrp : st.repo_path = some p) :
    (∀ a, co.askAgent pythonVersionRequest = some a →
        python_version st co m = (some a, [Effect.askAgent pythonVersionRequest])) ∧
    (co.askAgent pythonVersionRequest = none →
      ((∀ v, co.get_python_version p = some v → v ≠ "" →
          python_version st co m =
            (some v, [Effect.askAgent pythonVersionRequest, Effect.getPythonVersion p])) ∧
        (pyTruthyStr (co.get_python_version p) = false →
          python_version st co m =
            (some pythonVersionUnknownMessage,
             [Effect.askAgent pythonVersionRequest, Effect.getPythonVersion p])))) := by
  refine ⟨?_, fun hna => ⟨?_, ?_⟩⟩
  · intro a ha
    simp [python_version, hrp, ha]
  · intro v hv hne
    simp [python_version, hrp, hna, hv, pyTruthyStr, hne]
  · intro hfalse
    simp [python_version, hrp, hna, hfalse]

def pyVersionCollaborators : Collaborators :=
  { sampleCollaborators with get_python_version := fun _ => some "3.9" }

/-- C4 witness: the second resolution stage on concrete collaborators
whose sub-agent is silent and whose local analysis answers 3.9. -/
theorem python_version_two_stage_witness :
    python_version readmeState pyVersionCollaborators pythonVersionMessageDefault =
      (some ("3.9"), [Effect.askAgent pythonVersionRequest, Effect.getPythonVersion ("/repo")]) :=
  ((python_version_two_stage readmeState pyVersionCollaborators pythonVersionMessageDefault
      "/repo" rfl).2 rfl).1 "3.9" rfl (by decide)

/-- C6: _build_docker_image always returns a triple — on a docker build
error it is (none, text starting with Image build failed:, none) and the
error is absorbed, never rethrown (the embedding is a total function);
on success it is (the image, Image build successful!, a formatted
duration); and validate_dockerfile surfaces the failure text in its
returned content. -/
theorem build_docker_image_spec (co : Collaborators) (nm tag : String) :
    (∀ e, co.buildResult = Except.error e →
        _build_docker_image co nm tag =
          ((none, "Image build failed: " ++ e, none), [Effect.buildImage nm tag])) ∧
    (∀ img t, co.buildResult = Except.ok (img, t) →
        _build_docker_image co nm tag =
          ((some img, "Image build successful!", some (formatBuildTime t)),
           [Effect.buildImage nm tag])) ∧
    (∀ (st : DockerChatAgentState) (m : ValidateDockerfileMessage) (p e : String),
        st.repo_path = some p → co.saveError = none → co.buildResult = Except.error e →
        ¬((joinProposedDockerfile m.proposed_dockerfile).length < 20) →
        pyStartsWith (p ++ "/" ++ "Dockerfile_proposed") ("An error") = false →
        (validate_dockerfile st co m false).1 =
          some ("Docker build failed with error message: " ++ ("Image build failed: " ++ e))) := by
  refine ⟨?_, ?_, ?_⟩
  · intro e he
    simp [_build_docker_image, he]
  · intro img t ht
    simp [_build_docker_image, ht]
  · intro st m p e hrp hsave herr hlen hstart
    simp [validate_dockerfile, hrp, hlen, _save_dockerfile, hsave, hstart,
      _build_docker_image, herr]

def okBuildCollaborators : Collaborators :=
  { sampleCollaborators with buildResult := Except.ok ({ id := "img1" }, 123) }

set_option maxRecDepth 8000 in
/-- C6 witness: the failed and the successful build on concrete
collaborators, and validate_dockerfile surfacing the failure text. -/
theorem build_docker_image_witness :
    _build_docker_image sampleCollaborators ("Dockerfile_proposed") ("validate_img") =
      ((none, "Image build failed: " ++ "err", none),
       [Effect.buildImage ("Dockerfile_proposed") ("validate_img")]) ∧
    _build_docker_image okBuildCollaborators ("Dockerfile_proposed") ("validate_img") =
      ((some { id := "img1" }, "Image build successful!", some (formatBuildTime 123)),
       [Effect.buildImage ("Dockerfile_proposed") ("validate_img")]) ∧
    (validate_dockerfile readmeState sampleCollaborators validateDockerfileMessageDefault false).1 =
      some ("Docker build failed with error message: " ++ ("Image build failed: " ++ "err")) :=
  ⟨(build_docker_image_spec sampleCollaborators ("Dockerfile_proposed") ("validate_img")).1
      "err" rfl,
   (build_docker_image_spec okBuildCollaborators ("Dockerfile_proposed") ("validate_img")).2.1
      { id := "img1" } 123 rfl,
   (build_docker_image_spec sampleCollaborators ("Dockerfile_proposed") ("validate_img")).2.2
      readmeState validateDockerfileMessageDefault "/repo" "err" rfl rfl rfl
      (by decide) (by decide)⟩

/-- C9: AzureGPT construction raises ValueError exactly when the config
has an empty deployment_name, or an empty model_name, or — when neither
client provider is supplied — an empty api_key or an empty api_base; in
every other case construction completes. -/
theorem azure_init_valueerror_iff (config : AzureConfig) :
    (AzureGPT_init config).isOk = false ↔
      (config.deployment_name = "" ∨ config.model_name = "" ∨
        ((config.has_azure_openai_client_provider ||
            config.has_azure_openai_async_client_provider) = false ∧
          (config.api_key = "" ∨ config.api_base = ""))) := by
  unfold AzureGPT_init
  split_ifs with h1 h2 h3 h4 h5 <;>
    simp_all [Except.isOk, Except.toBool]
  intro ha hb
  rcases h3 with h3 | h3 <;> simp_all

/-- C10: after a successful AzureGPT construction,
supports_json_schema holds iff api_version is lexicographically at least
2024-08-01-preview and model_version is 2024-08-06 or 2024-11-20; in
particular it is false under the default api_version 2023-05-15. -/
theorem azure_supports_json_schema_iff (config : AzureConfig) (st : AzureGPTState)
    (h : AzureGPT_init config = Except.ok st) :
    (st.supports_json_schema = true ↔
      (pyStrGE config.api_version azureStructuredOutputAPIMin = true ∧
        (config.model_version = "2024-08-06" ∨ config.model_version = "2024-11-20"))) ∧
    (config.api_version = "2023-05-15" → st.supports_json_schema = false) := by
  have hmain : st.supports_json_schema = true ↔
      (pyStrGE config.api_version azureStructuredOutputAPIMin = true ∧
        (config.model_version = "2024-08-06" ∨ config.model_version = "2024-11-20")) := by
    unfold AzureGPT_init at h
    split_ifs at h <;> cases h <;> simp [azureStructuredOutputList]
  refine ⟨hmain, fun hv => ?_⟩
  cases hb : st.supports_json_schema
  · rfl
  · have hx := hmain.mp hb
    rw [hv] at hx
    have hfalse : pyStrGE ("2023-05-15") azureStructuredOutputAPIMin = false := by decide
    rw [hfalse] at hx
    exact absurd hx.1 (by simp)

def azureConfig0 : AzureConfig :=
  { api_key := "k", api_base := "b", deployment_name := "d",
    model_name := "gpt", model_version := "2024-08-06" }

def azureState0 : AzureGPTState :=
  { deployment_name := "d", chat_model := "gpt", has_client := true,
    has_async_client := true, supports_json_schema := false }

/-- C10 witness: under the default api_version 2023-05-15 construction
succeeds with supports_json_schema false, even with a structured-output
model version. -/
theorem azure_supports_json_schema_witness :
    azureState0.supports_json_schema = false :=
  (azure_supports_json_schema_iff azureConfig0 azureState0 (by rfl)).2 rfl

end LangroidSpec
